import Mathlib

/-!
Shallow embedding of three Rust source files of the `roc` repository:

* `crates/wasm_interp/src/lib.rs` — the `ImportDispatcher` trait, the
  `DefaultImportDispatcher` reference implementation and the
  `DEFAULT_IMPORTS` constant;
* `compiler/build/src/link.rs` — the `link` entry point that shells out to
  the external `ld` linker;
* `crates/compiler/can/src/env.rs` — the canonicalization environment `Env`
  with its qualified-name lookups.

Rust `&mut` parameters are threaded explicitly: a function mutating a
buffer or `self` returns the updated value.  A Rust `panic!`/`todo!`/
`expect` failure is modelled as an explicit `panicked` outcome constructor,
since such a call never returns to its caller.
-/

set_option autoImplicit false

namespace RocSpec

/-- Runtime value of the interpreter (`roc_wasm_module::Value`): a tagged
union over the four WebAssembly numeric kinds.  Floats are carried as raw
bit patterns; no claim computes with float arithmetic. -/
inductive Value where
  | I32 (n : Int)
  | I64 (n : Int)
  | F32 (bits : Nat)
  | F64 (bits : Nat)
  deriving DecidableEq, Repr

/-- The linear memory byte buffer (`&mut [u8]`), one byte per entry. -/
abbrev ByteMem := List Nat

/-- Write one byte into the buffer (out-of-range writes are left as no-ops;
no claim depends on out-of-bounds behaviour of the modelled wasi shim). -/
def writeByte (memory : ByteMem) (addr : Nat) (b : Nat) : ByteMem :=
  memory.set addr (b % 256)

/-- Write a 32-bit little-endian value into the buffer. -/
def writeU32LE (memory : ByteMem) (addr : Nat) (v : Nat) : ByteMem :=
  let m1 := writeByte memory addr (v % 256)
  let m2 := writeByte m1 (addr + 1) (v / 256 % 256)
  let m3 := writeByte m2 (addr + 2) (v / 65536 % 256)
  writeByte m3 (addr + 3) (v / 16777216 % 256)

/-- Write a list of bytes at consecutive addresses. -/
def writeBytes (memory : ByteMem) (addr : Nat) : List Nat → ByteMem
  | [] => memory
  | b :: rest => writeBytes (writeByte memory addr b) (addr + 1) rest

/-- UTF-8 bytes of a string. -/
def strBytes (s : String) : List Nat :=
  s.toUTF8.toList.map (fun b => b.toNat)

/-- Modelled from the spec: `wasi::MODULE_NAME`, the one fixed module
namespace the reference dispatcher recognizes.  The `wasi` module of
`crates/wasm_interp` is not under `src/`; the spec calls it "a known
system-interface namespace". -/
def wasi.MODULE_NAME : String := "wasi"

/-- The wasi system-call shim dispatcher.  Its only data is the
host-provided list of command-line argument strings. -/
structure WasiDispatcher where
  args : List String
  deriving DecidableEq, Repr

/-- Outcome of a dispatch call.  `ok` carries the optional result `Value`,
the updated memory buffer and the updated dispatcher state (`&mut self`);
`panicked` models a Rust `panic!`, which never returns. -/
inductive DispatchOutcome (S : Type) where
  | ok (result : Option Value) (memory : ByteMem) (self : S)
  | panicked (msg : String)
  deriving DecidableEq

/-- Total byte size of the argument strings, each NUL-terminated. -/
def argsBufSize (args : List String) : Nat :=
  args.foldl (fun acc s => acc + (strBytes s).length + 1) 0

/-- Write each argument string NUL-terminated into the buffer at `bufPtr`,
recording a pointer to each at `argvPtr`, `argvPtr+4`, ... -/
def writeArgsLoop (memory : ByteMem) (argvPtr bufPtr : Nat) :
    List String → ByteMem
  | [] => memory
  | s :: rest =>
    let bytes := strBytes s ++ [0]
    let m1 := writeU32LE memory argvPtr bufPtr
    let m2 := writeBytes m1 bufPtr bytes
    writeArgsLoop m2 (argvPtr + 4) (bufPtr + bytes.length) rest

/-- Modelled from the spec: `WasiDispatcher::dispatch` of
`crates/wasm_interp/src/wasi.rs`, which is not under `src/`.  The spec
describes it as recognizing the function names for "get command-line
arguments" (`args_get`) and "get sizes of command-line arguments"
(`args_sizes_get`), backed by the host-provided argument strings, writing
results into the guest's memory at guest-specified offsets, and entitled to
treat unrecognized names as fatal. -/
def WasiDispatcher.dispatch (self : WasiDispatcher) (function_name : String)
    (arguments : List Value) (memory : ByteMem) :
    DispatchOutcome WasiDispatcher :=
  if function_name = "args_sizes_get" then
    match arguments with
    | [Value.I32 ptrArgc, Value.I32 ptrBufSize] =>
      let m1 := writeU32LE memory ptrArgc.toNat self.args.length
      let m2 := writeU32LE m1 ptrBufSize.toNat (argsBufSize self.args)
      .ok (some (Value.I32 0)) m2 self
    | _ => .panicked "args_sizes_get: unexpected arguments"
  else if function_name = "args_get" then
    match arguments with
    | [Value.I32 argvPtr, Value.I32 argvBufPtr] =>
      let m1 := writeArgsLoop memory argvPtr.toNat argvBufPtr.toNat self.args
      .ok (some (Value.I32 0)) m1 self
    | _ => .panicked "args_get: unexpected arguments"
  else
    .panicked ("WasiDispatcher does not implement " ++ function_name)

/-- The `ImportDispatcher` trait: dispatch a call from WebAssembly to host
code, based on module and function name, with mutable access to the linear
memory (`crates/wasm_interp/src/lib.rs`). -/
structure ImportDispatcher (S : Type) where
  dispatch : S → String → String → List Value → ByteMem → DispatchOutcome S

/-- The reference host dispatcher: its only field is the wasi shim
(`crates/wasm_interp/src/lib.rs`). -/
structure DefaultImportDispatcher where
  wasi : WasiDispatcher
  deriving DecidableEq, Repr

/-- `DEFAULT_IMPORTS`: the compile-time constant dispatcher whose wasi args
list is empty. -/
def DEFAULT_IMPORTS : DefaultImportDispatcher :=
  { wasi := { args := [] } }

/-- `DefaultImportDispatcher::new`: explicit construction from chosen
command-line arguments. -/
def DefaultImportDispatcher.new (args : List String) :
    DefaultImportDispatcher :=
  { wasi := { args := args } }

/-- `impl ImportDispatcher for DefaultImportDispatcher`: forward to the
wasi shim when the module name is `wasi::MODULE_NAME`, otherwise `panic!`
with the unimplemented module/function pair. -/
def DefaultImportDispatcher.dispatch (self : DefaultImportDispatcher)
    (module_name function_name : String) (arguments : List Value)
    (memory : ByteMem) : DispatchOutcome DefaultImportDispatcher :=
  if module_name = wasi.MODULE_NAME then
    match self.wasi.dispatch function_name arguments memory with
    | .ok result m w => .ok result m { wasi := w }
    | .panicked msg => .panicked msg
  else
    .panicked ("DefaultImportDispatcher does not implement " ++
      module_name ++ "." ++ function_name)

/-- Lift a wasi dispatch outcome into the enclosing dispatcher's outcome,
re-wrapping the updated wasi state into the `wasi` field. -/
def liftWasiOutcome (self : DefaultImportDispatcher) :
    DispatchOutcome WasiDispatcher → DispatchOutcome DefaultImportDispatcher
  | .ok result m w => .ok result m { self with wasi := w }
  | .panicked msg => .panicked msg

/-- The trait implementation, packaged as an `ImportDispatcher` instance. -/
def defaultImportDispatcherImpl : ImportDispatcher DefaultImportDispatcher :=
  { dispatch := DefaultImportDispatcher.dispatch }

/-! ### `compiler/build/src/link.rs` -/

/-- Target architecture (`target_lexicon::Architecture`), restricted to the
variants the claims distinguish plus a catch-all for the rest. -/
inductive Architecture where
  | X86_64
  | X86_32
  | Aarch64
  | Wasm32
  | OtherArch (name : String)
  deriving DecidableEq, Repr

/-- Target operating system (`target_lexicon::OperatingSystem`), restricted
likewise. -/
inductive OperatingSystem where
  | Linux
  | Darwin
  | Windows
  | OtherOs (name : String)
  deriving DecidableEq, Repr

/-- A target triple (`target_lexicon::Triple`).  `link` matches only on the
architecture and operating system; vendor, environment and binary format are
covered by the `..` in its patterns. -/
structure Triple where
  architecture : Architecture
  vendor : String
  operating_system : OperatingSystem
  environment : String
  binary_format : String
  deriving DecidableEq, Repr

/-- Debug rendering of an architecture, for the `{:?}` panic payload. -/
def Architecture.debugStr : Architecture → String
  | .X86_64 => "X86_64"
  | .X86_32 => "X86_32"
  | .Aarch64 => "Aarch64"
  | .Wasm32 => "Wasm32"
  | .OtherArch name => name

/-- Debug rendering of an operating system, for the `{:?}` panic payload. -/
def OperatingSystem.debugStr : OperatingSystem → String
  | .Linux => "Linux"
  | .Darwin => "Darwin"
  | .Windows => "Windows"
  | .OtherOs name => name

/-- Debug rendering of a triple, for the `{:?}` panic payload. -/
def Triple.debugStr (t : Triple) : String :=
  t.architecture.debugStr ++ "-" ++ t.vendor ++ "-" ++
    t.operating_system.debugStr ++ "-" ++ t.environment

/-- Modelled from the spec: `arch_str` lives in `crate::target`, which is
not under `src/`; it renders the target architecture as the string passed
to the linker's `-arch` flag. -/
def arch_str (target : Triple) : String :=
  match target.architecture with
  | .X86_64 => "x86_64"
  | .X86_32 => "x86_32"
  | .Aarch64 => "aarch64"
  | .Wasm32 => "wasm32"
  | .OtherArch name => name

/-- A spawned child process (`std::process::Child`), described by the
program it runs and its argument list.  `Command::spawn` returning
`io::Result<Child>` is modelled by the child description itself: whether
the spawn succeeds at the OS level is environmental, while the command
line is determined by the code. -/
structure Child where
  program : String
  args : List String
  deriving DecidableEq, Repr

/-- Outcome of `link`: a spawned child returned to the caller, a `todo!`
divergence, or a `panic!` divergence. -/
inductive LinkOutcome where
  | spawned (child : Child)
  | todoPanic (msg : String)
  | panicked (msg : String)
  deriving DecidableEq, Repr

/-- `link_linux`: spawn the external `ld` command with the fixed flag and
library arguments, the app binary path (after `-o`), the host object path
and the destination filename (`compiler/build/src/link.rs`). -/
def link_linux (arch : String)
    (binary_path host_input_path dest_filename : String) : Child :=
  { program := "ld"
    args :=
      ["-arch", arch,
       "/usr/lib/x86_64-linux-gnu/crti.o",
       "/usr/lib/x86_64-linux-gnu/crtn.o",
       "/usr/lib/x86_64-linux-gnu/Scrt1.o",
       "-dynamic-linker", "/lib64/ld-linux-x86-64.so.2",
       "-lc", "-lm", "-lpthread", "-ldl", "-lrt", "-lutil", "-lc_nonshared",
       "-o", binary_path, host_input_path, dest_filename] }

/-- `link`: dispatch on the target triple.  x86_64 Linux shells out to
`ld` via `link_linux`; x86_64 Darwin is `todo!("link macos")`; every other
target panics (`compiler/build/src/link.rs`). -/
def link (target : Triple)
    (binary_path host_input_path dest_filename : String) : LinkOutcome :=
  match target.architecture, target.operating_system with
  | .X86_64, .Linux =>
    .spawned (link_linux (arch_str target) binary_path host_input_path
      dest_filename)
  | .X86_64, .Darwin => .todoPanic "link macos"
  | _, _ =>
    .panicked ("TODO gracefully handle unsupported target: " ++
      target.debugStr)

/-! ### `crates/compiler/can/src/env.rs`

The collaborator types (`IdentIds`, `Scope`, `PackageModuleIds`, `VecSet`,
`MutMap`) live in other crates of the repository; they are finite lookup
tables and are embedded as association lists with the lookup operations
`env.rs` uses. -/

/-- A module identifier (`ModuleId`), an opaque numeric id. -/
abbrev ModuleId := Nat

/-- An identifier id within one module's interned table (`IdentId`). -/
abbrev IdentId := Nat

/-- A source region (`Region`), opaque to the lookup logic. -/
abbrev Region := Nat

/-- A unique symbol: a module id paired with an ident id (`Symbol`). -/
structure Symbol where
  module_id : ModuleId
  ident_id : IdentId
  deriving DecidableEq, Repr

/-- `Symbol::new`. -/
def Symbol.new (module_id : ModuleId) (ident_id : IdentId) : Symbol :=
  { module_id, ident_id }

/-- One module's interned identifier table (`IdentIds`): the `IdentId` of a
string is its index in the table. -/
structure IdentIds where
  interned : List String
  deriving DecidableEq, Repr

/-- `IdentIds::get_id`: the id of an identifier string, when interned. -/
def IdentIds.get_id (self : IdentIds) (ident : String) : Option IdentId :=
  self.interned.findIdx? (fun s => s = ident)

/-- `IdentIds::ident_strs`: all `(IdentId, string)` pairs. -/
def IdentIds.ident_strs (self : IdentIds) : List (IdentId × String) :=
  self.interned.enum

/-- `IdentIdsByModule` (`MutMap<ModuleId, IdentIds>`): the exposed ident
tables of the dependency modules. -/
structure IdentIdsByModule where
  entries : List (ModuleId × IdentIds)
  deriving DecidableEq, Repr

/-- Map lookup on `IdentIdsByModule`. -/
def IdentIdsByModule.get (self : IdentIdsByModule) (module_id : ModuleId) :
    Option IdentIds :=
  (self.entries.find? (fun p => p.1 = module_id)).map (fun p => p.2)

/-- The imported-modules table of a scope (`scope.modules`): module name to
module id. -/
structure ScopeModules where
  entries : List (String × ModuleId)
  deriving DecidableEq, Repr

/-- `scope.modules.get_id`: the id of an imported module name. -/
def ScopeModules.get_id (self : ScopeModules) (name : String) :
    Option ModuleId :=
  (self.entries.find? (fun p => p.1 = name)).map (fun p => p.2)

/-- `scope.modules.has_id`: whether a module id is imported. -/
def ScopeModules.has_id (self : ScopeModules) (module_id : ModuleId) : Bool :=
  self.entries.any (fun p => p.2 = module_id)

/-- `scope.modules.available_names`: the imported module names. -/
def ScopeModules.available_names (self : ScopeModules) : List String :=
  self.entries.map (fun p => p.1)

/-- The home module's locals (`scope.locals`), holding its ident table. -/
structure ScopedIdentIds where
  ident_ids : IdentIds
  deriving DecidableEq, Repr

/-- The scope (`Scope`), restricted to the fields `env.rs` touches. -/
structure Scope where
  modules : ScopeModules
  locals : ScopedIdentIds
  deriving DecidableEq, Repr

/-- A package-qualified module name (`PQModuleName`). -/
inductive PQModuleName where
  | Unqualified (name : String)
  | Qualified (shorthand : String) (name : String)
  deriving DecidableEq, Repr

/-- `PQModuleName::as_inner`: the underlying module name. -/
def PQModuleName.as_inner : PQModuleName → String
  | .Unqualified name => name
  | .Qualified _ name => name

/-- `PackageModuleIds`: the global table of all known modules; a module's
id is its index. -/
structure PackageModuleIds where
  by_id : List PQModuleName
  deriving DecidableEq, Repr

/-- `PackageModuleIds::get_id`: the id of a known module name. -/
def PackageModuleIds.get_id (self : PackageModuleIds)
    (name : PQModuleName) : Option ModuleId :=
  self.by_id.findIdx? (fun n => n = name)

/-- `PackageModuleIds::get_name`: the name of a module id, when known. -/
def PackageModuleIds.get_name (self : PackageModuleIds)
    (module_id : ModuleId) : Option PQModuleName :=
  self.by_id.get? module_id

/-- `VecSet::insert`: append the element unless already present. -/
def VecSet.insert (self : List Symbol) (x : Symbol) : List Symbol :=
  if x ∈ self then self else self ++ [x]

/-- A canonicalization problem (`roc_problem::can::Problem`), opaque here:
the lookups never construct one. -/
structure Problem where
  tag : Nat
  deriving DecidableEq, Repr

/-- References of a closure (`crate::procedure::References`), opaque here. -/
structure References where
  tag : Nat
  deriving DecidableEq, Repr

/-- A source location paired with an identifier (`Loc<Ident>`). -/
structure Loc where
  value : String
  region : Region
  deriving DecidableEq, Repr

/-- The runtime errors `env.rs` constructs, plus `OtherError` standing for
the remaining constructors of the upstream `RuntimeError` enum, which the
lookups never produce. -/
inductive RuntimeError where
  | ModuleNotImported (module_name : String) (imported_modules : List String)
      (region : Region) (module_exists : Bool)
  | LookupNotInScope (loc_name : Loc) (suggestion_options : List String)
      (underscored_suggestion_region : Option Region)
  | ValueNotExposed (module_name : String) (ident : String) (region : Region)
      (exposed_values : List String)
  | OtherError (tag : Nat)
  deriving DecidableEq, Repr

/-- The canonicalization environment (`Env`).  The `arena` allocator is
elided: it only affects allocation, not the lookup results. -/
structure Env where
  home : ModuleId
  dep_idents : IdentIdsByModule
  qualified_module_ids : PackageModuleIds
  problems : List Problem
  closures : List (Symbol × References)
  tailcallable_symbol : Option Symbol
  qualified_value_lookups : List Symbol
  qualified_type_lookups : List Symbol
  top_level_symbols : List Symbol
  opt_shorthand : Option String
  deriving DecidableEq, Repr

/-- `Env::new`. -/
def Env.new (home : ModuleId) (dep_idents : IdentIdsByModule)
    (qualified_module_ids : PackageModuleIds)
    (opt_shorthand : Option String) : Env :=
  { home, dep_idents, qualified_module_ids
    problems := []
    closures := []
    tailcallable_symbol := none
    qualified_value_lookups := []
    qualified_type_lookups := []
    top_level_symbols := []
    opt_shorthand }

/-- Outcome of a qualified lookup: `Ok(Symbol)` or `Err(RuntimeError)` with
the environment after the call (`&mut self`), or a panic (an `expect`
firing), which never returns. -/
inductive LookupOutcome where
  | ok (env : Env) (symbol : Symbol)
  | err (env : Env) (error : RuntimeError)
  | panicked (msg : String)
  deriving DecidableEq, Repr

/-- `ident.starts_with(|c: char| c.is_uppercase())`. -/
def identStartsWithUpper (ident : String) : Bool :=
  match ident.data with
  | [] => false
  | c :: _ => c.isUpper

/-- `ident.starts_with(|c: char| c.is_lowercase())`. -/
def identStartsWithLower (ident : String) : Bool :=
  match ident.data with
  | [] => false
  | c :: _ => c.isLower

/-- `Env::module_exists_but_not_imported`: build the `ModuleNotImported`
error with `module_exists: true`; the `expect` on `get_name` is modelled as
`Except.error` (a panic). -/
def Env.module_exists_but_not_imported (env : Env) (scope : Scope)
    (module_id : ModuleId) (region : Region) : Except String RuntimeError :=
  match env.qualified_module_ids.get_name module_id with
  | some pq =>
    .ok (.ModuleNotImported pq.as_inner scope.modules.available_names region
      true)
  | none => .error "Module ID known, but not in the module IDs somehow"

/-- `Env::qualified_lookup_help`: resolve `ident` inside `module_id`,
recording the symbol in the type- or value-lookup set on success.  Returns
`Err` if the symbol resolved but was not exposed by the given module. -/
def Env.qualified_lookup_help (env : Env) (scope : Scope)
    (module_id : ModuleId) (ident : String) (region : Region) :
    LookupOutcome :=
  let is_type_name := identStartsWithUpper ident
  if module_id = env.home then
    match scope.locals.ident_ids.get_id ident with
    | some ident_id =>
      let symbol := Symbol.new module_id ident_id
      if is_type_name then
        .ok { env with
          qualified_type_lookups :=
            VecSet.insert env.qualified_type_lookups symbol } symbol
      else
        .ok { env with
          qualified_value_lookups :=
            VecSet.insert env.qualified_value_lookups symbol } symbol
    | none =>
      .err env (.LookupNotInScope { value := ident, region }
        (scope.locals.ident_ids.ident_strs.map (fun p => p.2)) none)
  else
    match env.dep_idents.get module_id with
    | some exposed_ids =>
      match exposed_ids.get_id ident with
      | some ident_id =>
        let symbol := Symbol.new module_id ident_id
        if is_type_name then
          .ok { env with
            qualified_type_lookups :=
              VecSet.insert env.qualified_type_lookups symbol } symbol
        else
          .ok { env with
            qualified_value_lookups :=
              VecSet.insert env.qualified_value_lookups symbol } symbol
      | none =>
        let exposed_values :=
          (exposed_ids.ident_strs.filter
            (fun p => identStartsWithLower p.2)).map (fun p => p.2)
        match env.qualified_module_ids.get_name module_id with
        | some pq =>
          .err env (.ValueNotExposed pq.as_inner ident region exposed_values)
        | none => .panicked "Module ID known, but not in the module IDs somehow"
    | none =>
      match env.module_exists_but_not_imported scope module_id region with
      | .ok e => .err env e
      | .error msg => .panicked msg

/-- `Env::qualified_lookup`: resolve the module name in the scope, then
defer to `qualified_lookup_help`; an unknown module name yields
`ModuleNotImported` with `module_exists` reporting whether the module is
known globally.  The `debug_assert!` on a non-empty module name is elided:
it is compiled out of release builds. -/
def Env.qualified_lookup (env : Env) (scope : Scope)
    (module_name_str : String) (ident : String) (region : Region) :
    LookupOutcome :=
  match scope.modules.get_id module_name_str with
  | some module_id => env.qualified_lookup_help scope module_id ident region
  | none =>
    .err env (.ModuleNotImported module_name_str
      scope.modules.available_names region
      (env.qualified_module_ids.get_id
        (PQModuleName.Unqualified module_name_str)).isSome)

/-- `Env::qualified_lookup_with_module_id`: like `qualified_lookup` but
starting from a module id. -/
def Env.qualified_lookup_with_module_id (env : Env) (scope : Scope)
    (module_id : ModuleId) (ident : String) (region : Region) :
    LookupOutcome :=
  if ¬ scope.modules.has_id module_id then
    match env.module_exists_but_not_imported scope module_id region with
    | .ok e => .err env e
    | .error msg => .panicked msg
  else
    env.qualified_lookup_help scope module_id ident region

/-! ### Properties the claims compare the lookups against -/

/-- The claim-side success condition for a qualified lookup: the
identifier is found among the module's identifiers — the home module's
local idents when the module is the home module, the dep module's exposed
idents otherwise. -/
def identFound (env : Env) (scope : Scope) (module_id : ModuleId)
    (ident : String) : Bool :=
  if module_id = env.home then
    (scope.locals.ident_ids.get_id ident).isSome
  else
    match env.dep_idents.get module_id with
    | some exposed_ids => (exposed_ids.get_id ident).isSome
    | none => false

/-- Whether a runtime error is one of the three the lookups may produce. -/
def isEnvRuntimeError : RuntimeError → Bool
  | .ModuleNotImported .. => true
  | .LookupNotInScope .. => true
  | .ValueNotExposed .. => true
  | .OtherError _ => false

/-- Well-formedness of the environment against a scope: every imported
module id has a name in the global module table.  This is the invariant
the source itself asserts with
`expect("Module ID known, but not in the module IDs somehow")`. -/
def namesKnown (env : Env) (scope : Scope) : Bool :=
  scope.modules.entries.all
    (fun p => (env.qualified_module_ids.get_name p.2).isSome)

/-! ### Concrete fixtures for witnesses -/

/-- A small concrete environment: home module `0` (`Home`), one dependency
module `1` (`Dep`) exposing `foo` and `Bar`, and a globally known but
unimported module `2` (`Extra`). -/
def env0 : Env :=
  Env.new 0
    ⟨[(1, ⟨["foo", "Bar"]⟩)]⟩
    ⟨[PQModuleName.Unqualified "Home", PQModuleName.Unqualified "Dep",
      PQModuleName.Unqualified "Extra"]⟩
    none

/-- A concrete scope importing `Home` and `Dep`, with locals `baz` and
`Qux`. -/
def scope0 : Scope :=
  { modules := ⟨[("Home", 0), ("Dep", 1)]⟩
    locals := ⟨⟨["baz", "Qux"]⟩⟩ }

/-- `env0` after a successful qualified lookup of the type name
`Dep.Bar`. -/
def env0TypeBar : Env :=
  { env0 with qualified_type_lookups := [Symbol.new 1 1] }

/-! ### Helper lemmas -/

/-- An inserted symbol is a member of the set afterwards. -/
theorem mem_vecset_insert (l : List Symbol) (x : Symbol) :
    x ∈ VecSet.insert l x := by
  unfold VecSet.insert
  split
  · assumption
  · simp

/-- A successful module-name lookup found an entry of the table. -/
theorem scope_modules_get_id_mem (sm : ScopeModules) (name : String)
    (mid : ModuleId) (h : sm.get_id name = some mid) :
    ∃ p ∈ sm.entries, p.2 = mid := by
  unfold ScopeModules.get_id at h
  cases hf : sm.entries.find? (fun p => p.1 = name) with
  | none => rw [hf] at h; cases h
  | some p =>
    rw [hf] at h
    cases h
    exact ⟨p, List.mem_of_find?_eq_some hf, rfl⟩

/-- Every `err` outcome of `qualified_lookup_help` carries the input
environment unchanged. -/
theorem qualified_lookup_help_err_env (env : Env) (scope : Scope)
    (mid : ModuleId) (ident : String) (region : Region) (env2 : Env)
    (e : RuntimeError)
    (h : env.qualified_lookup_help scope mid ident region = .err env2 e) :
    env2 = env := by
  simp only [Env.qualified_lookup_help] at h
  split at h
  · split at h
    · split at h <;> cases h
    · cases h; rfl
  · split at h
    · split at h
      · split at h <;> cases h
      · split at h
        · cases h; rfl
        · cases h
    · split at h
      · cases h; rfl
      · cases h

/-- Full case analysis of `qualified_lookup_help`: under the module-name
invariant it succeeds exactly when the identifier is found in the module,
never panics, and every error is one of the lookup errors. -/
theorem qualified_lookup_help_spec (env : Env) (scope : Scope)
    (mid : ModuleId) (ident : String) (region : Region)
    (hk : mid = env.home ∨
      (env.qualified_module_ids.get_name mid).isSome = true) :
    ((∃ env2 s, env.qualified_lookup_help scope mid ident region =
        .ok env2 s) ↔ identFound env scope mid ident = true)
    ∧ (∀ msg,
        env.qualified_lookup_help scope mid ident region ≠ .panicked msg)
    ∧ (∀ env2 e,
        env.qualified_lookup_help scope mid ident region = .err env2 e →
        isEnvRuntimeError e = true) := by
  by_cases hh : mid = env.home
  · simp only [Env.qualified_lookup_help, identFound, if_pos hh]
    cases hg : scope.locals.ident_ids.get_id ident with
    | some iid =>
      simp only [hg]
      refine ⟨?_, ?_, ?_⟩
      · by_cases hu : identStartsWithUpper ident = true <;> simp [hu]
      · intro msg
        split <;> simp
      · intro env2 e hc
        split at hc <;> cases hc
    | none =>
      simp only [hg]
      refine ⟨by simp, by simp, ?_⟩
      intro env2 e hc
      cases hc
      rfl
  · have hs : (env.qualified_module_ids.get_name mid).isSome = true :=
      hk.resolve_left hh
    cases hkn : env.qualified_module_ids.get_name mid with
    | none => rw [hkn] at hs; cases hs
    | some pq =>
      simp only [Env.qualified_lookup_help, identFound, if_neg hh]
      cases hd : env.dep_idents.get mid with
      | some exposed_ids =>
        simp only [hd]
        cases hg : exposed_ids.get_id ident with
        | some iid =>
          simp only [hg]
          refine ⟨?_, ?_, ?_⟩
          · by_cases hu : identStartsWithUpper ident = true <;> simp [hu]
          · intro msg
            split <;> simp
          · intro env2 e hc
            split at hc <;> cases hc
        | none =>
          simp only [hg, hkn]
          refine ⟨by simp, by simp, ?_⟩
          intro env2 e hc
          cases hc
          rfl
      | none =>
        simp only [hd, Env.module_exists_but_not_imported, hkn]
        refine ⟨by simp, by simp, ?_⟩
        intro env2 e hc
        cases hc
        rfl

/-- The wasi shim never mutates its own state: a successful dispatch
returns `self` unchanged. -/
theorem wasi_dispatch_ok_self (w : WasiDispatcher) (f : String)
    (a : List Value) (m : ByteMem) (r : Option Value) (m2 : ByteMem)
    (w2 : WasiDispatcher) (h : w.dispatch f a m = .ok r m2 w2) : w2 = w := by
  unfold WasiDispatcher.dispatch at h
  split at h
  · split at h <;> simp_all
  · split at h
    · split at h <;> simp_all
    · simp_all

/-! ### Theorems about the claims -/

/-- C1: a call to `DefaultImportDispatcher::dispatch` whose `module_name`
is not the fixed wasi module namespace panics with the unimplemented
module/function pair and never returns a dispatch result. -/
theorem dispatch_unknown_module_panics (d : DefaultImportDispatcher)
    (mname fname : String) (arguments : List Value) (memory : ByteMem)
    (h : mname ≠ wasi.MODULE_NAME) :
    d.dispatch mname fname arguments memory =
      .panicked ("DefaultImportDispatcher does not implement " ++
        mname ++ "." ++ fname)
    ∧ ∀ (result : Option Value) (m2 : ByteMem)
        (d2 : DefaultImportDispatcher),
        d.dispatch mname fname arguments memory ≠ .ok result m2 d2 := by
  unfold DefaultImportDispatcher.dispatch
  rw [if_neg h]
  exact ⟨rfl, by intro result m2 d2 hc; cases hc⟩

/-- Witness for C1 at the concrete module name `"env"`. -/
theorem dispatch_unknown_module_panics_witness :
    DEFAULT_IMPORTS.dispatch "env" "send" [] [] =
      .panicked ("DefaultImportDispatcher does not implement " ++
        "env" ++ "." ++ "send")
    ∧ ∀ (result : Option Value) (m2 : ByteMem)
        (d2 : DefaultImportDispatcher),
        DEFAULT_IMPORTS.dispatch "env" "send" [] [] ≠ .ok result m2 d2 :=
  dispatch_unknown_module_panics DEFAULT_IMPORTS "env" "send" [] []
    (by decide)

/-- C2: the `ImportDispatcher` capability interface has exactly the
declared shape — a dispatch call takes a module name, a function name, an
ordered argument list and mutable memory, and (unless it panics) returns
either a single result `Value` (`some v`) or no result (`none`), together
with the updated memory and dispatcher state; `DefaultImportDispatcher`
implements this interface with its `dispatch` method. -/
theorem import_dispatcher_shape :
    defaultImportDispatcherImpl.dispatch = DefaultImportDispatcher.dispatch
    ∧ ∀ (S : Type) (iface : ImportDispatcher S) (self : S)
        (module_name function_name : String) (arguments : List Value)
        (memory : ByteMem),
        (∃ msg, iface.dispatch self module_name function_name arguments
          memory = .panicked msg)
        ∨ (∃ v m2 s2, iface.dispatch self module_name function_name
            arguments memory = .ok (some v) m2 s2)
        ∨ (∃ m2 s2, iface.dispatch self module_name function_name arguments
            memory = .ok none m2 s2) := by
  refine ⟨rfl, fun S iface self mn fn a m => ?_⟩
  cases h : iface.dispatch self mn fn a m with
  | ok r m2 s2 =>
    cases r with
    | none => exact Or.inr (Or.inr ⟨m2, s2, rfl⟩)
    | some v => exact Or.inr (Or.inl ⟨v, m2, s2, rfl⟩)
  | panicked msg => exact Or.inl ⟨msg, rfl⟩

/-- C4: `DefaultImportDispatcher::dispatch` forwards to its inner wasi
dispatcher exactly when the module name is the wasi namespace: on the wasi
module name the outcome is the wasi shim's outcome, and on any other
module name the outcome is a panic that is independent of the dispatcher's
state, so no host capability is ever consulted. -/
theorem dispatch_forwards_iff_wasi_module (d : DefaultImportDispatcher)
    (mname fname : String) (arguments : List Value) (memory : ByteMem) :
    (mname = wasi.MODULE_NAME →
      d.dispatch mname fname arguments memory =
        liftWasiOutcome d (d.wasi.dispatch fname arguments memory))
    ∧ (mname ≠ wasi.MODULE_NAME →
      (∀ d2 : DefaultImportDispatcher,
        d.dispatch mname fname arguments memory =
          d2.dispatch mname fname arguments memory)
      ∧ ∃ msg, d.dispatch mname fname arguments memory = .panicked msg) := by
  constructor
  · intro h
    unfold DefaultImportDispatcher.dispatch liftWasiOutcome
    rw [if_pos h]
  · intro h
    refine ⟨fun d2 => ?_, ?_⟩
    · unfold DefaultImportDispatcher.dispatch
      rw [if_neg h, if_neg h]
    · exact ⟨_, (dispatch_unknown_module_panics d mname fname arguments
        memory h).1⟩

/-- Witness for C4: forwarding on `"wasi"`, panic independent of state on
`"env"`. -/
theorem dispatch_forwards_iff_wasi_module_witness :
    DEFAULT_IMPORTS.dispatch "wasi" "args_sizes_get" [.I32 0, .I32 4]
      (List.replicate 8 0) =
      liftWasiOutcome DEFAULT_IMPORTS
        (DEFAULT_IMPORTS.wasi.dispatch "args_sizes_get" [.I32 0, .I32 4]
          (List.replicate 8 0))
    ∧ ∃ msg, DEFAULT_IMPORTS.dispatch "env" "send" [] [] = .panicked msg :=
  ⟨(dispatch_forwards_iff_wasi_module DEFAULT_IMPORTS "wasi"
      "args_sizes_get" [.I32 0, .I32 4] (List.replicate 8 0)).1 rfl,
   ((dispatch_forwards_iff_wasi_module DEFAULT_IMPORTS "env" "send" []
      []).2 (by decide)).2⟩

/-- C5: for every target triple with x86_64 architecture and Linux
operating system, `link` spawns the external `ld` command with an argument
list containing the app binary path, the host object path and the
destination filename, and returns that spawned child to the caller. -/
theorem link_x86_64_linux_spawns_ld (t : Triple) (b h d : String)
    (ha : t.architecture = .X86_64) (ho : t.operating_system = .Linux) :
    ∃ child, link t b h d = .spawned child ∧ child.program = "ld"
      ∧ b ∈ child.args ∧ h ∈ child.args ∧ d ∈ child.args := by
  obtain ⟨arch, v, os, e, bf⟩ := t
  cases ha
  cases ho
  exact ⟨_, rfl, rfl, by simp [link_linux], by simp [link_linux],
    by simp [link_linux]⟩

/-- Witness for C5 at a concrete x86_64 Linux triple. -/
theorem link_x86_64_linux_spawns_ld_witness :
    ∃ child,
      link ⟨.X86_64, "unknown", .Linux, "gnu", "elf"⟩ "app" "host.o"
        "roc_app.o" = .spawned child
      ∧ child.program = "ld" ∧ "app" ∈ child.args ∧ "host.o" ∈ child.args
      ∧ "roc_app.o" ∈ child.args :=
  link_x86_64_linux_spawns_ld ⟨.X86_64, "unknown", .Linux, "gnu", "elf"⟩
    "app" "host.o" "roc_app.o" rfl rfl

/-- C6: the reference dispatcher's only state is the host-provided
command-line arguments — `new args` builds a dispatcher whose wasi shim
holds exactly `args`, and every successful dispatch call returns the
dispatcher state unchanged. -/
theorem default_dispatcher_state_is_args (args : List String) :
    (DefaultImportDispatcher.new args).wasi = { args := args }
    ∧ ∀ (d : DefaultImportDispatcher) (mname fname : String)
        (arguments : List Value) (memory : ByteMem)
        (result : Option Value) (m2 : ByteMem)
        (d2 : DefaultImportDispatcher),
        d.dispatch mname fname arguments memory = .ok result m2 d2 →
        d2 = d := by
  refine ⟨rfl, fun d mname fname arguments memory result m2 d2 h => ?_⟩
  unfold DefaultImportDispatcher.dispatch at h
  split at h
  · cases hw : d.wasi.dispatch fname arguments memory with
    | ok r mw w =>
      rw [hw] at h
      obtain ⟨-, -, h2⟩ := DispatchOutcome.ok.inj h
      have hww := wasi_dispatch_ok_self d.wasi fname arguments memory r mw
        w hw
      cases d
      simp_all
    | panicked msg => rw [hw] at h; cases h
  · cases h

/-- Witness for C6: a concrete successful dispatch leaves
`DEFAULT_IMPORTS` unchanged. -/
theorem default_dispatcher_state_is_args_witness :
    (DefaultImportDispatcher.new ["hello"]).wasi = { args := ["hello"] }
    ∧ DEFAULT_IMPORTS = DEFAULT_IMPORTS :=
  ⟨(default_dispatcher_state_is_args ["hello"]).1,
   (default_dispatcher_state_is_args ["hello"]).2 DEFAULT_IMPORTS "wasi"
     "args_sizes_get" [.I32 0, .I32 4] (List.replicate 8 0)
     (some (.I32 0)) (List.replicate 8 0) DEFAULT_IMPORTS (by decide)⟩

/-- C7: `DEFAULT_IMPORTS` is a compile-time constant dispatcher whose
backing command-line-argument list is empty, while explicit construction
with chosen arguments remains available through `new`. -/
theorem default_imports_convenience :
    DEFAULT_IMPORTS.wasi.args = []
    ∧ ∀ args : List String,
        (DefaultImportDispatcher.new args).wasi.args = args :=
  ⟨rfl, fun _ => rfl⟩

/-- C10: for every target triple that is not x86_64 Linux, `link` never
spawns a process: an x86_64 Darwin target diverges via `todo!`, and every
other target diverges via `panic!`. -/
theorem link_unsupported_targets_diverge (t : Triple) (b h d : String)
    (hn : ¬(t.architecture = .X86_64 ∧ t.operating_system = .Linux)) :
    (∀ child, link t b h d ≠ .spawned child)
    ∧ (t.architecture = .X86_64 → t.operating_system = .Darwin →
        link t b h d = .todoPanic "link macos")
    ∧ (¬(t.architecture = .X86_64 ∧ t.operating_system = .Darwin) →
        ∃ msg, link t b h d = .panicked msg) := by
  obtain ⟨arch, v, os, e, bf⟩ := t
  cases arch <;> cases os <;> simp_all [link]

/-- Witness for C10 at a concrete x86_64 Darwin triple. -/
theorem link_unsupported_targets_diverge_witness :
    (∀ child,
      link ⟨.X86_64, "apple", .Darwin, "", "macho"⟩ "a" "b" "c" ≠
        .spawned child)
    ∧ link ⟨.X86_64, "apple", .Darwin, "", "macho"⟩ "a" "b" "c" =
        .todoPanic "link macos" :=
  ⟨(link_unsupported_targets_diverge ⟨.X86_64, "apple", .Darwin, "",
      "macho"⟩ "a" "b" "c" (by simp)).1,
   (link_unsupported_targets_diverge ⟨.X86_64, "apple", .Darwin, "",
      "macho"⟩ "a" "b" "c" (by simp)).2.1 rfl rfl⟩

/-- C3: under the invariant the source itself asserts (every imported
module id has a globally known name), `Env::qualified_lookup` returns
`Ok(Symbol)` exactly when the named module is among the scope's imported
modules and the identifier is found among that module's identifiers, and
in every other case it returns one of the runtime errors
`ModuleNotImported`, `LookupNotInScope` or `ValueNotExposed` — never a
symbol and never a panic. -/
theorem qualified_lookup_ok_iff (env : Env) (scope : Scope)
    (mname ident : String) (region : Region)
    (hwf : namesKnown env scope = true) :
    ((∃ env2 s, env.qualified_lookup scope mname ident region = .ok env2 s)
      ↔ ∃ mid, scope.modules.get_id mname = some mid
          ∧ identFound env scope mid ident = true)
    ∧ (∀ msg, env.qualified_lookup scope mname ident region ≠ .panicked msg)
    ∧ (∀ env2 e,
        env.qualified_lookup scope mname ident region = .err env2 e →
        isEnvRuntimeError e = true) := by
  cases hm : scope.modules.get_id mname with
  | none =>
    simp only [Env.qualified_lookup, hm]
    refine ⟨?_, by simp, ?_⟩
    · constructor
      · rintro ⟨env2, s, hc⟩
        cases hc
      · rintro ⟨mid, hmid, -⟩
        cases hmid
    · intro env2 e hc
      cases hc
      rfl
  | some mid =>
    have hk : mid = env.home ∨
        (env.qualified_module_ids.get_name mid).isSome = true := by
      by_cases hh : mid = env.home
      · exact Or.inl hh
      · obtain ⟨p, hp, hpm⟩ :=
          scope_modules_get_id_mem scope.modules mname mid hm
        unfold namesKnown at hwf
        have hall := (List.all_eq_true.1 hwf) p hp
        simp only at hall
        exact Or.inr (hpm ▸ hall)
    obtain ⟨hiff, hpan, herr⟩ :=
      qualified_lookup_help_spec env scope mid ident region hk
    simp only [Env.qualified_lookup, hm]
    refine ⟨?_, hpan, herr⟩
    rw [hiff]
    simp

/-- Witness for C3: `Dep.foo` resolves in the concrete environment. -/
theorem qualified_lookup_ok_iff_witness :
    ∃ env2 s, env0.qualified_lookup scope0 "Dep" "foo" 0 = .ok env2 s :=
  (qualified_lookup_ok_iff env0 scope0 "Dep" "foo" 0 (by decide)).1.2
    ⟨1, by decide, by decide⟩

/-- C8: every successful `qualified_lookup_help` records the symbol in
exactly one tracking set — `qualified_type_lookups` when the identifier
starts with an uppercase character, `qualified_value_lookups` otherwise —
leaving the other set untouched. -/
theorem qualified_lookup_help_records_symbol (env : Env) (scope : Scope)
    (mid : ModuleId) (ident : String) (region : Region) (env2 : Env)
    (s : Symbol)
    (h : env.qualified_lookup_help scope mid ident region = .ok env2 s) :
    (identStartsWithUpper ident = true →
      env2.qualified_type_lookups =
          VecSet.insert env.qualified_type_lookups s
        ∧ env2.qualified_value_lookups = env.qualified_value_lookups
        ∧ s ∈ env2.qualified_type_lookups)
    ∧ (identStartsWithUpper ident = false →
      env2.qualified_value_lookups =
          VecSet.insert env.qualified_value_lookups s
        ∧ env2.qualified_type_lookups = env.qualified_type_lookups
        ∧ s ∈ env2.qualified_value_lookups) := by
  simp only [Env.qualified_lookup_help] at h
  split at h
  · split at h
    · split at h
      · cases h
        refine ⟨fun _ => ⟨rfl, rfl, mem_vecset_insert _ _⟩, fun hf => ?_⟩
        simp_all
      · cases h
        refine ⟨fun hu => ?_, fun _ => ⟨rfl, rfl, mem_vecset_insert _ _⟩⟩
        simp_all
    · cases h
  · split at h
    · split at h
      · split at h
        · cases h
          refine ⟨fun _ => ⟨rfl, rfl, mem_vecset_insert _ _⟩, fun hf => ?_⟩
          simp_all
        · cases h
          refine ⟨fun hu => ?_, fun _ => ⟨rfl, rfl, mem_vecset_insert _ _⟩⟩
          simp_all
      · split at h <;> cases h
    · split at h <;> cases h

/-- Witness for C8: looking up the type name `Dep.Bar` records the symbol
in the type-lookup set only. -/
theorem qualified_lookup_help_records_symbol_witness :
    env0TypeBar.qualified_type_lookups =
        VecSet.insert env0.qualified_type_lookups (Symbol.new 1 1)
      ∧ env0TypeBar.qualified_value_lookups = env0.qualified_value_lookups
      ∧ Symbol.new 1 1 ∈ env0TypeBar.qualified_type_lookups :=
  (qualified_lookup_help_records_symbol env0 scope0 1 "Bar" 0 env0TypeBar
    (Symbol.new 1 1) (by decide)).1 (by decide)

/-- C9: qualified lookup is atomic on failure — whenever
`Env::qualified_lookup` or `Env::qualified_lookup_with_module_id` returns
`Err`, the environment is returned unchanged. -/
theorem qualified_lookup_err_preserves_env (env : Env) (scope : Scope)
    (mname : String) (mid : ModuleId) (ident : String) (region : Region)
    (env2 : Env) (e : RuntimeError) :
    (env.qualified_lookup scope mname ident region = .err env2 e →
      env2 = env)
    ∧ (env.qualified_lookup_with_module_id scope mid ident region =
        .err env2 e → env2 = env) := by
  constructor
  · intro h
    unfold Env.qualified_lookup at h
    split at h
    · exact qualified_lookup_help_err_env env scope _ ident region env2 e h
    · cases h
      rfl
  · intro h
    unfold Env.qualified_lookup_with_module_id at h
    split at h
    · split at h
      · cases h
        rfl
      · cases h
    · exact qualified_lookup_help_err_env env scope mid ident region env2
        e h

/-- Witness for C9: failing lookups through both entry points leave the
concrete environment unchanged. -/
theorem qualified_lookup_err_preserves_env_witness :
    env0.qualified_lookup scope0 "Nope" "x" 0 =
        .err env0 (.ModuleNotImported "Nope" ["Home", "Dep"] 0 false)
    ∧ env0.qualified_lookup_with_module_id scope0 2 "x" 0 =
        .err env0 (.ModuleNotImported "Extra" ["Home", "Dep"] 0 true)
    ∧ env0 = env0 ∧ env0 = env0 :=
  ⟨by decide, by decide,
   (qualified_lookup_err_preserves_env env0 scope0 "Nope" 2 "x" 0 env0
     (.ModuleNotImported "Nope" ["Home", "Dep"] 0 false)).1 (by decide),
   (qualified_lookup_err_preserves_env env0 scope0 "Nope" 2 "x" 0 env0
     (.ModuleNotImported "Extra" ["Home", "Dep"] 0 true)).2 (by decide)⟩

end RocSpec
